import Mathlib

/-
Verification of the emeritus-mcp server core against its specification.

The development shallowly embeds the relevant Python sources:
  * src/emeritus_mcp/auth/authentication.py   (EmeritusAuth.get_token / get_headers)
  * src/emeritus_mcp/services/emeritus_client.py (EmeritusClient._generate_auth_headers)
  * src/emeritus_mcp/models/leads.py          (ImportLeadsRequest and its validator)
  * src/emeritus_mcp/services/leads_service.py (LeadsService.import_leads)
  * src/emeritus_mcp/api/v5/leads.py          (import_leads route)
  * src/emeritus_mcp/models/common.py         (MCPResponse)
  * src/emeritus_mcp/server.py                (handle_list_tools / handle_call_tool)

Async methods are embedded as pure functions over explicit state, with the
response the network would deliver passed in as a parameter; exceptions are
embedded as Except values.
-/

namespace EmeritusMCP

/-! SHA-256, used by both signing sites (hashlib.sha256 in the Python source).
All words are Nat reduced modulo 2^32. -/

def w32 : Nat := 4294967296

def rot32 (n x : Nat) : Nat := ((x >>> n) ||| (x <<< (32 - n))) % w32

def bigS0 (x : Nat) : Nat := (rot32 2 x) ^^^ (rot32 13 x) ^^^ (rot32 22 x)
def bigS1 (x : Nat) : Nat := (rot32 6 x) ^^^ (rot32 11 x) ^^^ (rot32 25 x)
def smallS0 (x : Nat) : Nat := (rot32 7 x) ^^^ (rot32 18 x) ^^^ (x >>> 3)
def smallS1 (x : Nat) : Nat := (rot32 17 x) ^^^ (rot32 19 x) ^^^ (x >>> 10)

def chFn (x y z : Nat) : Nat := (x &&& y) ^^^ ((x ^^^ (w32 - 1)) &&& z)
def majFn (x y z : Nat) : Nat := (x &&& y) ^^^ (x &&& z) ^^^ (y &&& z)

def sha256K : List Nat :=
  [1116352408, 1899447441, 3049323471, 3921009573, 961987163,
   1508970993, 2453635748, 2870763221, 3624381080, 310598401,
   607225278, 1426881987, 1925078388, 2162078206, 2614888103,
   3248222580, 3835390401, 4022224774, 264347078, 604807628,
   770255983, 1249150122, 1555081692, 1996064986, 2554220882,
   2821834349, 2952996808, 3210313671, 3336571891, 3584528711,
   113926993, 338241895, 666307205, 773529912, 1294757372,
   1396182291, 1695183700, 1986661051, 2177026350, 2456956037,
   2730485921, 2820302411, 3259730800, 3345764771, 3516065817,
   3600352804, 4094571909, 275423344, 430227734, 506948616,
   659060556, 883997877, 958139571, 1322822218, 1537002063,
   1747873779, 1955562222, 2024104815, 2227730452, 2361852424,
   2428436474, 2756734187, 3204031479, 3329325298]

def sha256Init : List Nat :=
  [1779033703, 3144134277, 1013904242, 2773480762, 1359893119,
   2600822924, 528734635, 1541459225]

def padBytes (msg : List Nat) : List Nat :=
  let L := msg.length
  let padLen := (119 - (L % 64)) % 64 + 1
  let bitLen := L * 8
  let lenBytes := (List.range 8).map (fun i => (bitLen >>> ((7 - i) * 8)) % 256)
  msg ++ (0x80 :: List.replicate (padLen - 1) 0) ++ lenBytes

def bytesToWords : Nat → List Nat → List Nat
  | 0, _ => []
  | _, [] => []
  | fuel + 1, b0 :: rest =>
    match rest with
    | b1 :: b2 :: b3 :: rest2 =>
      (b0 * 16777216 + b1 * 65536 + b2 * 256 + b3) :: bytesToWords fuel rest2
    | _ => []

def msgSchedule (ws : List Nat) : List Nat :=
  (List.range 48).foldl
    (fun acc _ =>
      let n := acc.length
      acc ++ [(smallS1 (acc.getD (n - 2) 0) + acc.getD (n - 7) 0 +
               smallS0 (acc.getD (n - 15) 0) + acc.getD (n - 16) 0) % w32])
    ws

def sha256Round (st : List Nat) (kw : Nat × Nat) : List Nat :=
  match st with
  | [a, b, c, d, e, f, g, h] =>
    let t1 := (h + bigS1 e + chFn e f g + kw.1 + kw.2) % w32
    let t2 := (bigS0 a + majFn a b c) % w32
    [(t1 + t2) % w32, a, b, c, (d + t1) % w32, e, f, g]
  | _ => st

def sha256Block (h0 : List Nat) (block : List Nat) : List Nat :=
  let ws := msgSchedule (bytesToWords 16 block)
  let st := (sha256K.zip ws).foldl sha256Round h0
  (h0.zip st).map (fun p => (p.1 + p.2) % w32)

def blocks64 : Nat → List Nat → List (List Nat)
  | 0, _ => []
  | _, [] => []
  | fuel + 1, l => l.take 64 :: blocks64 fuel (l.drop 64)

def sha256Words (msg : List Nat) : List Nat :=
  (blocks64 (msg.length + 9) (padBytes msg)).foldl sha256Block sha256Init

def hexChar (d : Nat) : Char :=
  if d < 10 then Char.ofNat (48 + d) else Char.ofNat (87 + d)

def wordHex (x : Nat) : List Char :=
  (List.range 8).map (fun i => hexChar ((x >>> ((7 - i) * 4)) % 16))

/-- Hexadecimal SHA-256 digest of a byte list, as hashlib.sha256(...).hexdigest(). -/
def sha256Hex (msg : List Nat) : String :=
  String.mk ((sha256Words msg).map wordHex).flatten

/-- UTF-8 encoding of one character, as Python str.encode() produces per code point. -/
def utf8Bytes (c : Char) : List Nat :=
  let n := c.toNat
  if n < 128 then [n]
  else if n < 2048 then [192 ||| (n >>> 6), 128 ||| (n &&& 63)]
  else if n < 65536 then
    [224 ||| (n >>> 12), 128 ||| ((n >>> 6) &&& 63), 128 ||| (n &&& 63)]
  else
    [240 ||| (n >>> 18), 128 ||| ((n >>> 12) &&& 63), 128 ||| ((n >>> 6) &&& 63), 128 ||| (n &&& 63)]

/-- Byte sequence of a string under UTF-8, as Python str.encode(). -/
def strBytes (s : String) : List Nat := (s.data.map utf8Bytes).flatten

/-! Python helpers shared by the embeddings. -/

/-- Truthiness of an Optional of str in Python: None and the empty string are falsy. -/
def pyTruthy : Option String → Bool
  | none => false
  | some s => !(s == "")

/-- Python str.startswith, evaluated structurally over the character lists. -/
def charsStartWith : List Char → List Char → Bool
  | _, [] => true
  | [], _ :: _ => false
  | c :: cs, p :: ps => c == p && charsStartWith cs ps

def strStartsWith (s p : String) : Bool := charsStartWith s.data p.data

/-- Python str.endswith, evaluated structurally over the reversed character lists. -/
def strEndsWith (s p : String) : Bool := charsStartWith s.data.reverse p.data.reverse

/-- Single quote character, used to spell Python KeyError stringification. -/
def sq : String := String.singleton (Char.ofNat 39)

/-! Credential manager (auth/authentication.py, class EmeritusAuth).

The mutable fields _token and _token_expire_time become the AuthState record;
the response httpx would deliver for the token POST becomes the TokenResponse
parameter; raising fastapi.HTTPException becomes returning Except.error of an
HTTPExc record. -/

structure AuthState where
  token : Option String
  expire : Option String
deriving DecidableEq

structure HTTPExc where
  status_code : Nat
  detail : String
deriving DecidableEq

/-- Response of the partner token endpoint: HTTP status plus the decoded JSON
body fields the source reads (code, msg, data.token, data.expire_time). -/
structure TokenResponse where
  status_code : Nat
  code : Int
  msg : String
  token : String
  expire_time : String
deriving DecidableEq

/-- Body posted to /api/v5/authentication/token by EmeritusAuth.get_token:
app_id, time_stamp, and signature = sha256(app_id + time_stamp + secret) hex. -/
def get_token_request_params (app_id secret : String) (now : Nat) : List (String × String) :=
  let signed_str := app_id ++ toString now ++ secret
  [("app_id", app_id),
   ("time_stamp", toString now),
   ("signature", sha256Hex (strBytes signed_str))]

/-- EmeritusAuth.get_token: return the cached token when the cached token and
expiry marker are both truthy (no expiry comparison is performed); otherwise
fetch. The Bool in the result records whether a network fetch was performed. -/
def get_token (st : AuthState) (resp : TokenResponse) :
    Except HTTPExc (AuthState × String × Bool) :=
  if pyTruthy st.token && pyTruthy st.expire then
    .ok (st, st.token.getD "", false)
  else if resp.status_code ≠ 200 then
    .error ⟨401, "Failed to authenticate with Emeritus API"⟩
  else if resp.code ≠ 0 then
    .error ⟨401, "Emeritus API error: " ++ resp.msg⟩
  else
    .ok (⟨some resp.token, some resp.expire_time⟩, resp.token, true)

/-- EmeritusAuth.get_headers: call get_token, then build the header map. -/
def get_headers (app_id : String) (st : AuthState) (resp : TokenResponse) :
    Except HTTPExc (AuthState × List (String × String)) :=
  match get_token st resp with
  | .error e => .error e
  | .ok (st2, token, _) =>
    .ok (st2, [("Content-Type", "application/json; charset=utf-8"),
               ("Authorization", "Bearer " ++ token),
               ("X-APP-ID", app_id)])

/-- EmeritusClient._generate_auth_headers (services/emeritus_client.py):
per-request signed headers with no token exchange. -/
def generate_auth_headers (user_id api_secret : String) (now : Nat) : List (String × String) :=
  let timestamp := toString now
  let signature_string := user_id ++ timestamp ++ api_secret
  let signature := sha256Hex (strBytes signature_string)
  [("X-User-ID", user_id),
   ("X-Timestamp", timestamp),
   ("X-Signature", signature),
   ("Content-Type", "application/json")]

/-! Leads data model (models/leads.py). -/

/-- Value of one dumped pydantic field, as it appears in model_dump(). -/
inductive PyVal where
  | pynone
  | pystr (s : String)
  | pybool (b : Bool)
  | pystrlist (l : List String)
deriving DecidableEq

/-- ImportLeadsRequest: corp_id is required, every other field defaults to None. -/
structure ImportLeadsRequest where
  corp_id : String
  user_id : Option String
  area_code : Option String
  mobile : Option String
  name : Option String
  utm_source : Option String
  utm_medium : Option String
  utm_campaign : Option String
  utm_channel : Option String
  utm_keyword : Option String
  utm_term : Option String
  campaign : Option String
  is_corporate_training : Option Bool
  form1_name : Option String
  form1_value : Option String
  form2_name : Option String
  form2_value : Option String
  form3_name : Option String
  form3_value : Option String
  form4_name : Option String
  form4_value : Option String
  entry_id : Option String
  page_id : Option String
  course_code : Option String
  bd_vid : Option String
  company_name : Option String
  work_exp : Option String
  job_title : Option String
  department : Option String
  city : Option String
  owner_ids : Option (List String)
  oid : Option String
deriving DecidableEq

def optStrVal : Option String → PyVal
  | none => .pynone
  | some s => .pystr s

def optBoolVal : Option Bool → PyVal
  | none => .pynone
  | some b => .pybool b

def optListVal : Option (List String) → PyVal
  | none => .pynone
  | some l => .pystrlist l

/-- model_dump() of an ImportLeadsRequest: every field in declaration order,
None-valued fields included. -/
def import_leads_model_dump (r : ImportLeadsRequest) : List (String × PyVal) :=
  [("corp_id", .pystr r.corp_id),
   ("user_id", optStrVal r.user_id),
   ("area_code", optStrVal r.area_code),
   ("mobile", optStrVal r.mobile),
   ("name", optStrVal r.name),
   ("utm_source", optStrVal r.utm_source),
   ("utm_medium", optStrVal r.utm_medium),
   ("utm_campaign", optStrVal r.utm_campaign),
   ("utm_channel", optStrVal r.utm_channel),
   ("utm_keyword", optStrVal r.utm_keyword),
   ("utm_term", optStrVal r.utm_term),
   ("campaign", optStrVal r.campaign),
   ("is_corporate_training", optBoolVal r.is_corporate_training),
   ("form1_name", optStrVal r.form1_name),
   ("form1_value", optStrVal r.form1_value),
   ("form2_name", optStrVal r.form2_name),
   ("form2_value", optStrVal r.form2_value),
   ("form3_name", optStrVal r.form3_name),
   ("form3_value", optStrVal r.form3_value),
   ("form4_name", optStrVal r.form4_name),
   ("form4_value", optStrVal r.form4_value),
   ("entry_id", optStrVal r.entry_id),
   ("page_id", optStrVal r.page_id),
   ("course_code", optStrVal r.course_code),
   ("bd_vid", optStrVal r.bd_vid),
   ("company_name", optStrVal r.company_name),
   ("work_exp", optStrVal r.work_exp),
   ("job_title", optStrVal r.job_title),
   ("department", optStrVal r.department),
   ("city", optStrVal r.city),
   ("owner_ids", optListVal r.owner_ids),
   ("oid", optStrVal r.oid)]

/-- Field names of ImportLeadsRequest in declaration order. -/
def importLeadsFieldNames : List String :=
  ["corp_id", "user_id", "area_code", "mobile", "name",
   "utm_source", "utm_medium", "utm_campaign", "utm_channel", "utm_keyword", "utm_term",
   "campaign", "is_corporate_training",
   "form1_name", "form1_value", "form2_name", "form2_value",
   "form3_name", "form3_value", "form4_name", "form4_value",
   "entry_id", "page_id", "course_code", "bd_vid", "company_name",
   "work_exp", "job_title", "department", "city", "owner_ids", "oid"]

/-- Outbound body built by LeadsService.import_leads: the model dump with
None-valued entries removed. -/
def import_leads_payload (r : ImportLeadsRequest) : List (String × PyVal) :=
  (import_leads_model_dump r).filter (fun kv => kv.2 != PyVal.pynone)

/-- ImportLeadsRequest.Config.validate_user_identification, as written in
models/leads.py: requires a truthy user_id, or truthy area_code and mobile. -/
def validate_user_identification (user_id area_code mobile : Option String) :
    Except String Unit :=
  if !(pyTruthy user_id) && !(pyTruthy area_code && pyTruthy mobile) then
    .error "Either user_id or both area_code and mobile must be provided"
  else
    .ok ()

/-- Validation pydantic v2 actually performs when parsing an ImportLeadsRequest
body: corp_id is the only required field. Config.get_validators is not a hook
pydantic recognizes (custom validators in v2 are registered with
field_validator / model_validator decorators on the model class), so
validate_user_identification is never invoked during parsing. -/
def pydanticAcceptsImportLeads (corp_id _user_id _area_code _mobile : Option String) : Bool :=
  corp_id.isSome

/-! Leads service and route (services/leads_service.py, api/v5/leads.py,
models/common.py). -/

/-- Response of the partner leads-import endpoint as read by the service:
HTTP status, raw text, and the decoded JSON fields code, msg, data. -/
structure LeadsHttpResponse where
  status_code : Nat
  text : String
  code : Int
  msg : String
  data : List (String × String)
deriving DecidableEq

/-- LeadsService.import_leads: obtain headers from the credential manager (an
exception there propagates before any request goes out), then POST the
None-stripped payload and check status and partner code. The second component
is the outbound request body, or none when no outbound request was made. -/
def leads_service_import_leads (r : ImportLeadsRequest)
    (headersResult : Except HTTPExc (List (String × String)))
    (resp : LeadsHttpResponse) :
    Except HTTPExc (List (String × String)) × Option (List (String × PyVal)) :=
  match headersResult with
  | .error e => (.error e, none)
  | .ok _ =>
    let payload := import_leads_payload r
    if resp.status_code ≠ 200 then
      (.error ⟨400, "Failed to import leads: " ++ resp.text⟩, some payload)
    else if resp.code ≠ 0 then
      (.error ⟨400, "Emeritus API error: " ++ resp.msg⟩, some payload)
    else
      (.ok resp.data, some payload)

/-- Typed payload of the import-leads envelope (models/leads.py). -/
structure ImportLeadsResponse where
  lead_id : String
deriving DecidableEq

/-- MCPResponse envelope (models/common.py), instantiated at the import-leads
payload type. -/
structure MCPResponse where
  success : Bool
  message : String
  data : Option ImportLeadsResponse
deriving DecidableEq

def MCPResponse.success_response (data : Option ImportLeadsResponse) : MCPResponse :=
  ⟨true, "Success", data⟩

def MCPResponse.error_response (message : String) : MCPResponse :=
  ⟨false, message, none⟩

/-- Outcome of the awaited leads_service.import_leads call as observed inside
the route body: a returned data dict, a raised HTTPException, or any other
exception already stringified. -/
inductive ServiceOutcome where
  | ok (data : List (String × String))
  | httpExc (status_code : Nat) (detail : String)
  | exc (message : String)
deriving DecidableEq

/-- Stringification of Python KeyError(k): the key wrapped in single quotes. -/
def keyErrorStr (k : String) : String := sq ++ k ++ sq

/-- import_leads route (api/v5/leads.py): wrap the service outcome into exactly
one MCPResponse. A missing lead_id key raises KeyError, which the generic
except branch stringifies. -/
def import_leads_route (outcome : ServiceOutcome) : MCPResponse :=
  match outcome with
  | .ok data =>
    match data.lookup "lead_id" with
    | some lid => MCPResponse.success_response (some ⟨lid⟩)
    | none => MCPResponse.error_response (keyErrorStr "lead_id")
  | .httpExc _ detail => MCPResponse.error_response detail
  | .exc message => MCPResponse.error_response message

def outcomeOfServiceResult : Except HTTPExc (List (String × String)) → ServiceOutcome
  | .ok d => .ok d
  | .error e => .httpExc e.status_code e.detail

/-- Identifier-relevant fields of an incoming /leads/import JSON body. -/
structure RawImportLeads where
  corp_id : Option String
  user_id : Option String
  area_code : Option String
  mobile : Option String
deriving DecidableEq

/-- ImportLeadsRequest built from the raw identifier fields, every other
optional field left at its None default. -/
def mkImportLeadsRequest (cid : String) (uid ac mob : Option String) : ImportLeadsRequest :=
  ⟨cid, uid, ac, mob, none, none, none, none, none, none, none, none, none,
   none, none, none, none, none, none, none, none, none, none, none, none,
   none, none, none, none, none, none, none⟩

/-- End-to-end /leads/import pipeline as the code actually behaves: pydantic
parses the body (corp_id required, custom validator never invoked), then the
route body runs the service. Except.error 422 models FastAPI rejecting the
body before the handler runs. The second component is the outbound request
body, none when no outbound request was made. -/
def leads_endpoint_effective (raw : RawImportLeads)
    (headersResult : Except HTTPExc (List (String × String)))
    (resp : LeadsHttpResponse) :
    Except Nat MCPResponse × Option (List (String × PyVal)) :=
  match raw.corp_id with
  | none => (.error 422, none)
  | some cid =>
    if pydanticAcceptsImportLeads (some cid) raw.user_id raw.area_code raw.mobile then
      let r := mkImportLeadsRequest cid raw.user_id raw.area_code raw.mobile
      let res := leads_service_import_leads r headersResult resp
      (.ok (import_leads_route (outcomeOfServiceResult res.1)), res.2)
    else (.error 422, none)

/-- End-to-end /leads/import pipeline as the model documents it: identical to
leads_endpoint_effective except that validate_user_identification runs during
parsing, as its docstring describes. -/
def leads_endpoint_intended (raw : RawImportLeads)
    (headersResult : Except HTTPExc (List (String × String)))
    (resp : LeadsHttpResponse) :
    Except Nat MCPResponse × Option (List (String × PyVal)) :=
  match raw.corp_id with
  | none => (.error 422, none)
  | some cid =>
    match validate_user_identification raw.user_id raw.area_code raw.mobile with
    | .error _ => (.error 422, none)
    | .ok _ =>
      let r := mkImportLeadsRequest cid raw.user_id raw.area_code raw.mobile
      let res := leads_service_import_leads r headersResult resp
      (.ok (import_leads_route (outcomeOfServiceResult res.1)), res.2)

/-! Tool dispatcher (server.py). -/

/-- Error codes the dispatcher uses from the MCP library. -/
inductive McpCode where
  | methodNotFound
  | internalError
deriving DecidableEq

/-- McpError as raised by server.py: an error code plus a message. -/
structure McpException where
  code : McpCode
  message : String
deriving DecidableEq

/-- Exception raised by a tool handler or by the dispatch body itself. -/
inductive PyExc where
  | mcp (code : McpCode) (message : String)
  | http (status_code : Nat) (detail : String)
  | other (message : String)
deriving DecidableEq

/-- Python str() of an exception: an McpError carries its message, a FastAPI
HTTPException renders as status colon detail, any other exception as its
message. -/
def strOfPyExc : PyExc → String
  | .mcp _ message => message
  | .http status_code detail => toString status_code ++ ": " ++ detail
  | .other message => message

/-- Message carried by an exception. -/
def msgOfPyExc : PyExc → String
  | .mcp _ message => message
  | .http _ detail => detail
  | .other message => message

/-- Argument map of an invocation. -/
def ToolArgs := List (String × String)

/-- Behavior of the underlying tool objects (user_tools, tag_tools,
order_tools, leads_tools): per tool name, either a serialized result or a
raised exception. -/
def ToolImpl := String → ToolArgs → Except PyExc String

/-- EmeritusMCPServer._handle_user_tool. -/
def handle_user_tool (impl : ToolImpl) (name : String) (args : ToolArgs) :
    Except PyExc String :=
  if name == "create_user" then impl name args
  else if name == "fetch_user_profile" then impl name args
  else if name == "update_user_owner" then impl name args
  else if name == "update_user_pool" then impl name args
  else if name == "update_user_email" then impl name args
  else if name == "fetch_user_contact" then impl name args
  else .error (.mcp .methodNotFound ("Unknown user tool: " ++ name))

/-- EmeritusMCPServer._handle_tag_tool. -/
def handle_tag_tool (impl : ToolImpl) (name : String) (args : ToolArgs) :
    Except PyExc String :=
  if name == "create_tag_group" then impl name args
  else if name == "list_tag_groups" then impl name args
  else if name == "update_tag_group" then impl name args
  else if name == "deactivate_tag_group" then impl name args
  else if name == "activate_tag_group" then impl name args
  else if name == "assign_user_tag" then impl name args
  else if name == "list_user_tags" then impl name args
  else .error (.mcp .methodNotFound ("Unknown tag tool: " ++ name))

/-- EmeritusMCPServer._handle_order_tool. -/
def handle_order_tool (impl : ToolImpl) (name : String) (args : ToolArgs) :
    Except PyExc String :=
  if name == "fetch_order" then impl name args
  else if name == "list_orders" then impl name args
  else if name == "list_order_financials" then impl name args
  else .error (.mcp .methodNotFound ("Unknown order tool: " ++ name))

/-- EmeritusMCPServer._handle_leads_tool. -/
def handle_leads_tool (impl : ToolImpl) (name : String) (args : ToolArgs) :
    Except PyExc String :=
  if name == "import_leads" then impl name args
  else .error (.mcp .methodNotFound ("Unknown leads tool: " ++ name))

/-- Body of handle_call_tool before the blanket except clause: route by string
patterns, raising McpError METHOD_NOT_FOUND for an unmatched name. -/
def call_tool_attempt (impl : ToolImpl) (name : String) (args : ToolArgs) :
    Except PyExc String :=
  if strStartsWith name "create_user" || strStartsWith name "fetch_user" ||
     strStartsWith name "update_user" then
    handle_user_tool impl name args
  else if strEndsWith name "_tag_group" || strEndsWith name "_user_tag" ||
     name == "list_user_tags" then
    handle_tag_tool impl name args
  else if strStartsWith name "fetch_order" || strStartsWith name "list_order" then
    handle_order_tool impl name args
  else if name == "import_leads" then
    handle_leads_tool impl name args
  else
    .error (.mcp .methodNotFound ("Unknown tool: " ++ name))

/-- One TextContent block of a tool result. -/
structure TextContent where
  type : String
  text : String
deriving DecidableEq

/-- ToolResult returned on success. -/
structure ToolCallResult where
  content : List TextContent
deriving DecidableEq

/-- handle_call_tool (server.py): run the dispatch body inside a try block
whose except clause catches every exception, including the METHOD_NOT_FOUND
McpError raised for an unknown name, and re-raises it as an INTERNAL_ERROR
McpError carrying the stringified original. -/
def handle_call_tool (impl : ToolImpl) (name : String) (args : ToolArgs) :
    Except McpException ToolCallResult :=
  match call_tool_attempt impl name args with
  | .ok result => .ok ⟨[⟨"text", result⟩]⟩
  | .error e => .error ⟨.internalError, "Tool execution failed: " ++ strOfPyExc e⟩

/-- Names for which the string-pattern dispatch resolves to an actual tool
method. Note that the cataloged tool list_tag_groups is absent: it ends in
"_tag_groups", which none of the patterns match (the tag branch tests the
suffix "_tag_group"), so a call to it falls through to the unknown-tool
branch. -/
def knownToolNames : List String :=
  ["create_user", "fetch_user_profile", "update_user_owner", "update_user_pool",
   "update_user_email", "fetch_user_contact",
   "create_tag_group", "update_tag_group",
   "deactivate_tag_group", "activate_tag_group", "assign_user_tag", "list_user_tags",
   "fetch_order", "list_orders", "list_order_financials",
   "import_leads"]

/-! Tool registry (server.py, handle_list_tools). -/

/-- JSON value, used to transcribe the inputSchema dictionaries verbatim. -/
inductive JVal where
  | str (s : String)
  | arr (elems : List JVal)
  | obj (fields : List (String × JVal))

/-- ToolDescriptor: name, description, input schema. -/
structure Tool where
  name : String
  description : String
  inputSchema : JVal

def strProp (description : String) : JVal :=
  .obj [("type", .str "string"), ("description", .str description)]

def intProp (description : String) : JVal :=
  .obj [("type", .str "integer"), ("description", .str description)]

/-- Static tool catalog returned by handle_list_tools, transcribed from
server.py in order. -/
def toolCatalog : List Tool :=
  [⟨"create_user", "Create a new user by mobile number or email",
    .obj [("type", .str "object"),
          ("properties", .obj
            [("mobile", strProp ("User" ++ sq ++ "s mobile number")),
             ("email", strProp ("User" ++ sq ++ "s email address")),
             ("source", strProp "Source of the user creation")]),
          ("anyOf", .arr
            [.obj [("required", .arr [.str "mobile"])],
             .obj [("required", .arr [.str "email"])]])]⟩,
   ⟨"fetch_user_profile", "Fetch user profile information",
    .obj [("type", .str "object"),
          ("properties", .obj [("user_id", strProp "User ID to fetch")]),
          ("required", .arr [.str "user_id"])]⟩,
   ⟨"update_user_owner", "Update the owner of a user",
    .obj [("type", .str "object"),
          ("properties", .obj
            [("user_id", strProp "User ID to update"),
             ("owner_id", strProp "New owner ID")]),
          ("required", .arr [.str "user_id", .str "owner_id"])]⟩,
   ⟨"update_user_pool", "Update the pool assignment of a user",
    .obj [("type", .str "object"),
          ("properties", .obj
            [("user_id", strProp "User ID to update"),
             ("pool_id", strProp "New pool ID")]),
          ("required", .arr [.str "user_id", .str "pool_id"])]⟩,
   ⟨"update_user_email", "Update a user" ++ sq ++ "s email address",
    .obj [("type", .str "object"),
          ("properties", .obj
            [("user_id", strProp "User ID to update"),
             ("email", strProp "New email address")]),
          ("required", .arr [.str "user_id", .str "email"])]⟩,
   ⟨"fetch_user_contact", "Fetch user contact information",
    .obj [("type", .str "object"),
          ("properties", .obj [("user_id", strProp "User ID to fetch contact for")]),
          ("required", .arr [.str "user_id"])]⟩,
   ⟨"create_tag_group", "Create a new tag group",
    .obj [("type", .str "object"),
          ("properties", .obj
            [("name", strProp "Tag group name"),
             ("description", strProp "Tag group description")]),
          ("required", .arr [.str "name"])]⟩,
   ⟨"list_tag_groups", "List all tag groups",
    .obj [("type", .str "object"),
          ("properties", .obj
            [("limit", intProp "Maximum number of results"),
             ("offset", intProp "Offset for pagination")])]⟩,
   ⟨"update_tag_group", "Update an existing tag group",
    .obj [("type", .str "object"),
          ("properties", .obj
            [("group_id", strProp "Tag group ID"),
             ("name", strProp "New name"),
             ("description", strProp "New description")]),
          ("required", .arr [.str "group_id"])]⟩,
   ⟨"deactivate_tag_group", "Deactivate a tag group",
    .obj [("type", .str "object"),
          ("properties", .obj [("group_id", strProp "Tag group ID to deactivate")]),
          ("required", .arr [.str "group_id"])]⟩,
   ⟨"activate_tag_group", "Activate a tag group",
    .obj [("type", .str "object"),
          ("properties", .obj [("group_id", strProp "Tag group ID to activate")]),
          ("required", .arr [.str "group_id"])]⟩,
   ⟨"assign_user_tag", "Assign a tag to a user",
    .obj [("type", .str "object"),
          ("properties", .obj
            [("user_id", strProp "User ID"),
             ("tag_id", strProp "Tag ID to assign")]),
          ("required", .arr [.str "user_id", .str "tag_id"])]⟩,
   ⟨"list_user_tags", "List tags assigned to a user",
    .obj [("type", .str "object"),
          ("properties", .obj [("user_id", strProp "User ID to list tags for")]),
          ("required", .arr [.str "user_id"])]⟩,
   ⟨"fetch_order", "Fetch details for a specific order",
    .obj [("type", .str "object"),
          ("properties", .obj [("order_id", strProp "Order ID to fetch")]),
          ("required", .arr [.str "order_id"])]⟩,
   ⟨"list_orders", "List orders with optional filtering",
    .obj [("type", .str "object"),
          ("properties", .obj
            [("user_id", strProp "Filter by user ID"),
             ("status", strProp "Filter by order status"),
             ("limit", intProp "Maximum number of results"),
             ("offset", intProp "Offset for pagination")])]⟩,
   ⟨"list_order_financials", "List financial records for orders",
    .obj [("type", .str "object"),
          ("properties", .obj
            [("order_id", strProp "Filter by order ID"),
             ("limit", intProp "Maximum number of results"),
             ("offset", intProp "Offset for pagination")])]⟩,
   ⟨"import_leads", "Import leads from raw data",
    .obj [("type", .str "object"),
          ("properties", .obj
            [("leads_data", .obj
               [("type", .str "array"),
                ("description", .str "Array of lead objects to import"),
                ("items", .obj [("type", .str "object")])]),
             ("source", strProp "Source of the leads")]),
          ("required", .arr [.str "leads_data"])]⟩]

/-- handle_list_tools, embedded with an explicit state thread: the handler
reads no state and performs no mutation, so it returns the static catalog and
the state unchanged. -/
def handle_list_tools {σ : Type} (w : σ) : List Tool × σ := (toolCatalog, w)

/-! Theorems. -/

/-- Sanity pin: the SHA-256 embedding reproduces the standard digest of "abc". -/
theorem sha256Hex_abc :
    sha256Hex (strBytes "abc") =
      "ba7816bf8f01cfea414140de5dae2223b00361a396177a9cb410ff61f20015ad" := by decide

/-- Sanity pin: the signature test vector of spec section 8 (identity "app1",
timestamp 1700000000, secret "s3cret"). -/
theorem signature_test_vector :
    (generate_auth_headers "app1" "s3cret" 1700000000).lookup "X-Signature" =
      some "827bbf31a085f640db3460e3cbc242523f4e1bf26859c82077d25d5772388400" := by decide

/-- C1: evaluation at the failing input. call_tool on the unknown name
"unknown_tool_xyz" with an empty argument map fails with the INTERNAL_ERROR
classification, not METHOD_NOT_FOUND: the METHOD_NOT_FOUND McpError raised
inside the try block is caught by the blanket except clause and re-raised as
INTERNAL_ERROR, contradicting the claim that an unknown tool is reported with
the UnknownTool / method-not-found classification and never as Internal. -/
theorem C1_unknown_tool_reported_internal :
    handle_call_tool (fun _ _ => .ok "") "unknown_tool_xyz" [] =
      .error ⟨.internalError, "Tool execution failed: Unknown tool: unknown_tool_xyz"⟩ ∧
    McpCode.internalError ≠ McpCode.methodNotFound :=
  ⟨rfl, by decide⟩

/-- C2: evaluation at the failing input. The validator as written accepts a
request identified only by user_id and rejects one with neither user_id nor
both area_code and mobile — but pydantic never invokes it, so the effective
endpoint pipeline accepts a body carrying only corp_id and issues the outbound
POST, while the documented (intended) pipeline rejects that body with 422
before any remote call. -/
theorem C2_leads_validation_bypassed :
    validate_user_identification (some "u1") none none = .ok () ∧
    validate_user_identification none none none =
      .error "Either user_id or both area_code and mobile must be provided" ∧
    (leads_endpoint_effective ⟨some "c1", some "u1", none, none⟩ (.ok []) ⟨200, "", 0, "", []⟩).2 =
      some (import_leads_payload (mkImportLeadsRequest "c1" (some "u1") none none)) ∧
    (leads_endpoint_effective ⟨some "c1", none, none, none⟩ (.ok []) ⟨200, "", 0, "", []⟩).2 =
      some (import_leads_payload (mkImportLeadsRequest "c1" none none none)) ∧
    leads_endpoint_intended ⟨some "c1", none, none, none⟩ (.ok []) ⟨200, "", 0, "", []⟩ =
      (.error 422, none) :=
  ⟨rfl, rfl, rfl, rfl, rfl⟩

/-- C3: when the cached token and its expiry marker are both present (truthy),
get_token returns the cached token value with no network fetch and an
unchanged state; the result is the same for any stored expiry marker (no
comparison of the expiry against the current time is possible — the cached
path reads no clock); hence two calls in immediate succession return the
identical token value with zero fetches between them. -/
theorem C3_cached_token_served (st : AuthState) (r1 r2 : TokenResponse)
    (e1 e2 : Option String)
    (h1 : pyTruthy st.token = true) (h2 : pyTruthy st.expire = true)
    (he1 : pyTruthy e1 = true) (he2 : pyTruthy e2 = true) :
    get_token st r1 = .ok (st, st.token.getD "", false) ∧
    get_token st r2 = .ok (st, st.token.getD "", false) ∧
    get_token ⟨st.token, e1⟩ r1 = .ok (⟨st.token, e1⟩, st.token.getD "", false) ∧
    get_token ⟨st.token, e2⟩ r1 = .ok (⟨st.token, e2⟩, st.token.getD "", false) := by
  refine ⟨?_, ?_, ?_, ?_⟩ <;> simp [get_token, h1, h2, he1, he2]

/-- Witness for C3 at a concrete cached state. -/
theorem C3_cached_token_served_witness :
    get_token ⟨some "tok", some "1893456000"⟩ ⟨200, 0, "", "other", "exp"⟩ =
      .ok (⟨some "tok", some "1893456000"⟩, "tok", false) ∧
    get_token ⟨some "tok", some "1893456000"⟩ ⟨500, 1, "down", "", ""⟩ =
      .ok (⟨some "tok", some "1893456000"⟩, "tok", false) ∧
    get_token ⟨some "tok", some "0"⟩ ⟨200, 0, "", "other", "exp"⟩ =
      .ok (⟨some "tok", some "0"⟩, "tok", false) ∧
    get_token ⟨some "tok", some "99999999999"⟩ ⟨200, 0, "", "other", "exp"⟩ =
      .ok (⟨some "tok", some "99999999999"⟩, "tok", false) :=
  C3_cached_token_served ⟨some "tok", some "1893456000"⟩
    ⟨200, 0, "", "other", "exp"⟩ ⟨500, 1, "down", "", ""⟩
    (some "0") (some "99999999999")
    (by decide) (by decide) (by decide) (by decide)

/-- C4 counterexample: the claim says a token-acquisition attempt fails exactly
when the HTTP result is non-2xx or the body code is non-zero; but at HTTP
status 201 (a 2xx status) with partner code 0, get_token still fails, because
the source tests status_code != 200, not membership in the 2xx class. -/
theorem C4_non2xx_counterexample :
    (200 ≤ 201 ∧ 201 < 300) ∧
    get_token ⟨none, none⟩ ⟨201, 0, "", "tok", "exp"⟩ =
      .error ⟨401, "Failed to authenticate with Emeritus API"⟩ :=
  ⟨⟨by norm_num, by norm_num⟩, rfl⟩

/-- C4 (amended): on a cache miss, token acquisition fails exactly when the
HTTP status is not exactly 200 or the partner code is non-zero; in the
non-zero-code case the 401 failure detail carries the partner message; on
status 200 with code 0 it succeeds, stores the returned token and expiry, and
returns the token. -/
theorem C4_token_fetch_outcome (st : AuthState) (r : TokenResponse)
    (hmiss : (pyTruthy st.token && pyTruthy st.expire) = false) :
    (r.status_code ≠ 200 →
      get_token st r = .error ⟨401, "Failed to authenticate with Emeritus API"⟩) ∧
    (r.status_code = 200 → r.code ≠ 0 →
      get_token st r = .error ⟨401, "Emeritus API error: " ++ r.msg⟩) ∧
    (r.status_code = 200 → r.code = 0 →
      get_token st r = .ok (⟨some r.token, some r.expire_time⟩, r.token, true)) := by
  refine ⟨fun hs => by simp [get_token, hmiss, hs],
          fun hs hc => by simp [get_token, hmiss, hs, hc],
          fun hs hc => by simp [get_token, hmiss, hs, hc]⟩

/-- Witness for C4 (amended) at a concrete cache-missing state and a partner
failure body. -/
theorem C4_token_fetch_outcome_witness :
    ((200 : Nat) ≠ 200 →
      get_token ⟨none, none⟩ ⟨200, 5, "bad app", "", ""⟩ =
        .error ⟨401, "Failed to authenticate with Emeritus API"⟩) ∧
    ((200 : Nat) = 200 → (5 : Int) ≠ 0 →
      get_token ⟨none, none⟩ ⟨200, 5, "bad app", "", ""⟩ =
        .error ⟨401, "Emeritus API error: " ++ "bad app"⟩) ∧
    ((200 : Nat) = 200 → (5 : Int) = 0 →
      get_token ⟨none, none⟩ ⟨200, 5, "bad app", "", ""⟩ =
        .ok (⟨some "", some ""⟩, "", true)) :=
  C4_token_fetch_outcome ⟨none, none⟩ ⟨200, 5, "bad app", "", ""⟩ (by decide)

/-- C5: for a fixed identity, secret, and timestamp, both signing sites (the
per-request header builder and the token-request body) produce the hex SHA-256
digest of the concatenation app_id + timestamp + secret, and two evaluations
on the same inputs produce identical output. -/
theorem C5_signature_deterministic (app_id secret : String) (ts ts2 : Nat)
    (h : ts = ts2) :
    (generate_auth_headers app_id secret ts).lookup "X-Signature" =
      some (sha256Hex (strBytes (app_id ++ toString ts ++ secret))) ∧
    (get_token_request_params app_id secret ts).lookup "signature" =
      some (sha256Hex (strBytes (app_id ++ toString ts ++ secret))) ∧
    generate_auth_headers app_id secret ts = generate_auth_headers app_id secret ts2 ∧
    get_token_request_params app_id secret ts = get_token_request_params app_id secret ts2 := by
  subst h
  refine ⟨?_, ?_, rfl, rfl⟩ <;> rfl

/-- Witness for C5 at the spec test-vector inputs. -/
theorem C5_signature_deterministic_witness :
    (generate_auth_headers "app1" "s3cret" 1700000000).lookup "X-Signature" =
      some (sha256Hex (strBytes ("app1" ++ toString 1700000000 ++ "s3cret"))) ∧
    (get_token_request_params "app1" "s3cret" 1700000000).lookup "signature" =
      some (sha256Hex (strBytes ("app1" ++ toString 1700000000 ++ "s3cret"))) ∧
    generate_auth_headers "app1" "s3cret" 1700000000 =
      generate_auth_headers "app1" "s3cret" 1700000000 ∧
    get_token_request_params "app1" "s3cret" 1700000000 =
      get_token_request_params "app1" "s3cret" 1700000000 :=
  C5_signature_deterministic "app1" "s3cret" 1700000000 1700000000 rfl

/-- C6: whenever the name resolves to an actual tool and the resolved handler
raises, the dispatch boundary catches the exception and re-raises it as an
INTERNAL_ERROR McpError whose message contains the original message. -/
theorem C6_handler_error_wrapped_internal (impl : ToolImpl) (name : String)
    (args : ToolArgs) (e : PyExc)
    (hname : name ∈ knownToolNames)
    (herr : impl name args = .error e) :
    handle_call_tool impl name args =
      .error ⟨.internalError, "Tool execution failed: " ++ strOfPyExc e⟩ ∧
    ∃ pre post, "Tool execution failed: " ++ strOfPyExc e = pre ++ msgOfPyExc e ++ post := by
  have hroute : call_tool_attempt impl name args = impl name args := by
    fin_cases hname <;> rfl
  refine ⟨by simp [handle_call_tool, hroute, herr], ?_⟩
  cases e with
  | mcp c m =>
    exact ⟨"Tool execution failed: ", "", by simp [strOfPyExc, msgOfPyExc]⟩
  | http s d =>
    exact ⟨"Tool execution failed: " ++ toString s ++ ": ", "",
      by simp [strOfPyExc, msgOfPyExc, String.append_assoc]⟩
  | other m =>
    exact ⟨"Tool execution failed: ", "", by simp [strOfPyExc, msgOfPyExc]⟩

/-- Witness for C6: a handler failing like RemoteAPIError code 400 message
"bad corp id" yields an INTERNAL_ERROR envelope containing "bad corp id". -/
theorem C6_handler_error_wrapped_internal_witness :
    handle_call_tool (fun _ _ => .error (.http 400 "bad corp id"))
        "fetch_user_profile" [("user_id", "u1")] =
      .error ⟨.internalError, "Tool execution failed: " ++ strOfPyExc (.http 400 "bad corp id")⟩ ∧
    ∃ pre post, "Tool execution failed: " ++ strOfPyExc (.http 400 "bad corp id") =
      pre ++ msgOfPyExc (.http 400 "bad corp id") ++ post :=
  C6_handler_error_wrapped_internal (fun _ _ => .error (.http 400 "bad corp id"))
    "fetch_user_profile" [("user_id", "u1")] (.http 400 "bad corp id")
    (by decide) rfl

/-- C7: the synchronous import-leads route maps every service outcome to
exactly one envelope of the success/message/data shape: an HTTPException with
an explicit detail yields success false with that detail and data none, any
other exception yields success false with the stringified exception and data
none, and a successful result yields success true with the structured payload
(a result dict missing lead_id raises KeyError, which is stringified the same
way). -/
theorem C7_route_single_envelope (o : ServiceOutcome) :
    (∀ s d, o = .httpExc s d → import_leads_route o = ⟨false, d, none⟩) ∧
    (∀ m, o = .exc m → import_leads_route o = ⟨false, m, none⟩) ∧
    (∀ data lid, o = .ok data → data.lookup "lead_id" = some lid →
      import_leads_route o = ⟨true, "Success", some ⟨lid⟩⟩) ∧
    (∀ data, o = .ok data → data.lookup "lead_id" = none →
      import_leads_route o = ⟨false, keyErrorStr "lead_id", none⟩) := by
  refine ⟨?_, ?_, ?_, ?_⟩
  · rintro s d rfl
    rfl
  · rintro m rfl
    rfl
  · rintro data lid rfl hl
    simp [import_leads_route, hl, MCPResponse.success_response]
  · rintro data rfl hl
    simp [import_leads_route, hl, MCPResponse.error_response]

/-- Witness for C7 on a failing service outcome with an explicit detail. -/
theorem C7_route_single_envelope_witness :
    import_leads_route (.httpExc 400 "Failed to import leads: boom") =
      ⟨false, "Failed to import leads: boom", none⟩ :=
  (C7_route_single_envelope (.httpExc 400 "Failed to import leads: boom")).1
    400 "Failed to import leads: boom" rfl

/-- C8 counterexample: get_headers returns Content-Type
"application/json; charset=utf-8", not "application/json" as the claim states,
so the returned map is not exactly the claimed one. -/
theorem C8_content_type_counterexample :
    get_headers "app1" ⟨some "tok", some "exp"⟩ ⟨200, 0, "", "", ""⟩ =
      .ok (⟨some "tok", some "exp"⟩,
        [("Content-Type", "application/json; charset=utf-8"),
         ("Authorization", "Bearer tok"),
         ("X-APP-ID", "app1")]) ∧
    ("application/json; charset=utf-8" : String) ≠ "application/json" :=
  ⟨rfl, by decide⟩

/-- C8 (amended): whenever get_token succeeds with token value tok, get_headers
returns exactly the three-entry map with Authorization "Bearer tok", X-APP-ID
the configured identity, and Content-Type "application/json; charset=utf-8". -/
theorem C8_get_headers_exact (app_id : String) (st st2 : AuthState)
    (r : TokenResponse) (tok : String) (fetched : Bool)
    (h : get_token st r = .ok (st2, tok, fetched)) :
    get_headers app_id st r =
      .ok (st2, [("Content-Type", "application/json; charset=utf-8"),
                 ("Authorization", "Bearer " ++ tok),
                 ("X-APP-ID", app_id)]) := by
  simp [get_headers, h]

/-- Witness for C8 (amended) at a concrete cached state. -/
theorem C8_get_headers_exact_witness :
    get_headers "app1" ⟨some "tok", some "exp"⟩ ⟨200, 0, "", "", ""⟩ =
      .ok (⟨some "tok", some "exp"⟩,
        [("Content-Type", "application/json; charset=utf-8"),
         ("Authorization", "Bearer " ++ "tok"),
         ("X-APP-ID", "app1")]) :=
  C8_get_headers_exact "app1" ⟨some "tok", some "exp"⟩ ⟨some "tok", some "exp"⟩
    ⟨200, 0, "", "", ""⟩ "tok" false rfl

/-- C9: handle_list_tools is pure and idempotent: it leaves the state
unchanged, and a second call (on the state the first call returned) yields the
same descriptor list in the same order, namely the static catalog. -/
theorem C9_list_tools_idempotent {σ : Type} (w : σ) :
    (handle_list_tools (handle_list_tools w).2).1 = (handle_list_tools w).1 ∧
    (handle_list_tools w).2 = w ∧
    (handle_list_tools w).1 = toolCatalog :=
  ⟨rfl, rfl, rfl⟩

/-- C10: the outbound leads-import body holds exactly the dumped request
entries whose value is not None, each with its value unmodified, and the dump
covers exactly the request-model fields in declaration order. -/
theorem C10_payload_exactly_non_none (r : ImportLeadsRequest) (kv : String × PyVal) :
    (kv ∈ import_leads_payload r ↔
      kv ∈ import_leads_model_dump r ∧ kv.2 ≠ PyVal.pynone) ∧
    (import_leads_model_dump r).map Prod.fst = importLeadsFieldNames := by
  refine ⟨?_, rfl⟩
  simp [import_leads_payload, List.mem_filter]

end EmeritusMCP
